import Mathlib

/-!
Verification of the crash-game round engine (Aviator-style) against its
specification.  The development shallowly embeds the JavaScript sources:

* `ProvablyFair.js` — the provably-fair outcome generator
  (`computeCrashMultiplier`, `verifyGameResult`);
* `game/GameEngine.js` — the round state machine, bet registry
  (`placeBet` / `cashOut` socket handlers), the multiplier tick and the
  crash/settlement sequence;
* the alternative engine revision with configured min/max bet bounds
  (`placeBetMinMax` below).

Numbers are modelled over `ℚ` (the arithmetic the code performs on
amounts, balances and multipliers), except for the flight easing curve
which uses `Math.log` / fractional `Math.pow` and is modelled over `ℝ`.
The SHA-256 HMAC primitive (`crypto.createHmac`) is kept abstract: every
definition is parametrised by a function `H : Hmac` mapping a key string
and a message string to a hex digest, exactly the shape of
`crypto.createHmac(alg, key).update(msg).digest('hex')`.
-/

/-- A hex digest: a list of hexadecimal digits (most significant first),
as produced by `.digest('hex')`. -/
abbrev HexDigest := List (Fin 16)

/-- Abstract HMAC primitive: `Hmac key msg` is the hex digest of
`crypto.createHmac('sha256', key)` updated with `msg`.  A call chain
`crypto.createHmac('sha256', k).digest('hex')` (no `.update`) is
`H k ""`. -/
abbrev Hmac := String → String → HexDigest

/-- `parseInt(hex, 16)` on a list of hex digits (most significant first). -/
def parseHexDigits (ds : HexDigest) : ℕ :=
  ds.foldl (fun acc d => 16 * acc + d.val) 0

/-- ProvablyFair.js line 14: `` const combinedSeed = `${serverSeed}-${clientSeed}-${nonce}` ``. -/
def combinedSeed (serverSeed clientSeed : String) (nonce : ℕ) : String :=
  serverSeed ++ "-" ++ clientSeed ++ "-" ++ toString nonce

/-- JavaScript `Math.round(x * 100) / 100` (round half toward positive
infinity, which is Mathlib's `round` = `⌊x + 1/2⌋`). -/
def jsRound2 (x : ℚ) : ℚ := ((round (x * 100) : ℤ) : ℚ) / 100

/-- The digest computation the code actually performs in step 1 of
`computeCrashMultiplier` (ProvablyFair.js lines 14–15):
`crypto.createHmac('sha256', combinedSeed).digest('hex')`, i.e. the HMAC
key is the combined string and the message is empty (no `.update` call). -/
def codeStepOneDigest (H : Hmac) (serverSeed clientSeed : String) (nonce : ℕ) : HexDigest :=
  H (combinedSeed serverSeed clientSeed nonce) ""

/-- Modelled from the spec (§4.1 step 1): "Compute a keyed message
authentication digest over `clientSeed` using `seed` as key", i.e.
HMAC with key `serverSeed` and message `clientSeed`.  Stated only to be
compared against `codeStepOneDigest`. -/
def specStepOneDigest (H : Hmac) (serverSeed clientSeed : String) : HexDigest :=
  H serverSeed clientSeed

/-- ProvablyFair.js lines 41–45: clamp the raw multiplier to the
configured interval — `if (multiplier < 1.01) 1.01 else if (multiplier >
1000) 1000 else multiplier`. -/
def clampMultiplier (raw : ℚ) : ℚ :=
  if raw < 101 / 100 then 101 / 100 else if raw > 1000 then 1000 else raw

/-- The arithmetic core of `computeCrashMultiplier` (ProvablyFair.js
lines 19–49) as a function of the parsed 13-hex-digit draw `num`:
`e = num / 16^13`; if `e == 0` the multiplier is `1.00`; otherwise
`(1 - 0.04) / e` clamped to `[1.01, 1000]` and rounded to 2 decimals
(house edge 0.04, line 37). -/
def crashMultiplierOfNum (num : ℕ) : ℚ :=
  if ((num : ℚ) / 16 ^ 13) = 0 then 1
  else jsRound2 (clampMultiplier ((1 - 4 / 100) / ((num : ℚ) / 16 ^ 13)))

/-- ProvablyFair.js `computeCrashMultiplier(serverSeed, clientSeed, nonce)`
(lines 12–58), returning the `multiplier` field of the result object. -/
def computeCrashMultiplier (H : Hmac) (serverSeed clientSeed : String) (nonce : ℕ) : ℚ :=
  crashMultiplierOfNum (parseHexDigits ((codeStepOneDigest H serverSeed clientSeed nonce).take 13))

/-- ProvablyFair.js `verifyGameResult` (lines 61–64):
`Math.abs(result.multiplier - claimedMultiplier) < 0.01`. -/
def verifyGameResult (H : Hmac) (serverSeed clientSeed : String) (nonce : ℕ)
    (claimedMultiplier : ℚ) : Bool :=
  decide (|computeCrashMultiplier H serverSeed clientSeed nonce - claimedMultiplier| < 1 / 100)

/-- `Math.round(x*100)/100` always has exactly two decimal places. -/
theorem jsRound2_den (x : ℚ) : ∃ k : ℤ, jsRound2 x = (k : ℚ) / 100 :=
  ⟨round (x * 100), rfl⟩

/-- `Math.round(x*100)/100` stays inside `[1.01, 1000]` whenever `x` does. -/
theorem jsRound2_bounds {x : ℚ} (h1 : 101 / 100 ≤ x) (h2 : x ≤ 1000) :
    101 / 100 ≤ jsRound2 x ∧ jsRound2 x ≤ 1000 := by
  unfold jsRound2
  rw [round_eq]
  have hl : (101 : ℤ) ≤ ⌊x * 100 + 1 / 2⌋ := Int.le_floor.mpr (by push_cast; linarith)
  have hr : ⌊x * 100 + 1 / 2⌋ < (100001 : ℤ) := Int.floor_lt.mpr (by push_cast; linarith)
  have hq1 : (101 : ℚ) ≤ ((⌊x * 100 + 1 / 2⌋ : ℤ) : ℚ) := by exact_mod_cast hl
  have hq2 : ((⌊x * 100 + 1 / 2⌋ : ℤ) : ℚ) ≤ 100000 := by
    have h : ⌊x * 100 + 1 / 2⌋ ≤ (100000 : ℤ) := by omega
    exact_mod_cast h
  exact ⟨by linarith, by linarith⟩

/-- The clamp of ProvablyFair.js lines 41–45 lands in `[1.01, 1000]`. -/
theorem clampMultiplier_bounds (raw : ℚ) :
    101 / 100 ≤ clampMultiplier raw ∧ clampMultiplier raw ≤ 1000 := by
  unfold clampMultiplier
  split_ifs with h1 h2
  · exact ⟨le_refl _, by norm_num⟩
  · exact ⟨by norm_num, le_refl _⟩
  · exact ⟨not_lt.mp h1, not_lt.mp h2⟩

/-- Range/precision facts about the arithmetic core, by draw value. -/
theorem crashMultiplierOfNum_spec (num : ℕ) :
    (∃ k : ℤ, crashMultiplierOfNum num = (k : ℚ) / 100) ∧
    (num = 0 → crashMultiplierOfNum num = 1) ∧
    (num ≠ 0 → 101 / 100 ≤ crashMultiplierOfNum num ∧ crashMultiplierOfNum num ≤ 1000) := by
  by_cases h0 : num = 0
  · subst h0
    refine ⟨⟨100, by norm_num [crashMultiplierOfNum]⟩,
      fun _ => by norm_num [crashMultiplierOfNum], fun h => absurd rfl h⟩
  · have hene : ((num : ℚ) / 16 ^ 13) ≠ 0 :=
      ne_of_gt (div_pos (by exact_mod_cast Nat.pos_of_ne_zero h0) (by norm_num))
    unfold crashMultiplierOfNum
    rw [if_neg hene]
    obtain ⟨hcl, hcr⟩ := clampMultiplier_bounds ((1 - 4 / 100) / ((num : ℚ) / 16 ^ 13))
    exact ⟨jsRound2_den _, fun h => absurd h h0, fun _ => jsRound2_bounds hcl hcr⟩

/-- C2: `computeCrashMultiplier` is a deterministic pure function — two
calls with identical `(serverSeed, clientSeed, nonce)` (and the same HMAC
primitive) return the identical multiplier — and `verifyGameResult`
applied to the multiplier it returns for those same inputs is `true`. -/
theorem C2_deriveOutcome_deterministic (H : Hmac) (s c : String) (n : ℕ) :
    computeCrashMultiplier H s c n = computeCrashMultiplier H s c n ∧
    verifyGameResult H s c n (computeCrashMultiplier H s c n) = true := by
  refine ⟨rfl, ?_⟩
  simp only [verifyGameResult, sub_self, abs_zero, decide_eq_true_eq]
  norm_num

/-- C10: `verifyGameResult` returns `true` iff the claimed multiplier is
within strictly less than `0.01` of the multiplier `computeCrashMultiplier`
returns for the same `(serverSeed, clientSeed, nonce)`. -/
theorem C10_verify_tolerance (H : Hmac) (s c : String) (n : ℕ) (claimed : ℚ) :
    verifyGameResult H s c n claimed = true ↔
      |claimed - computeCrashMultiplier H s c n| < 1 / 100 := by
  simp only [verifyGameResult, decide_eq_true_eq]
  rw [abs_sub_comm]

/-- An HMAC instance that reveals which key and message it was given
(first digit from the key length, second from the message length). -/
def probeHmac : Hmac := fun key msg =>
  [⟨key.length % 16, Nat.mod_lt _ (by norm_num)⟩,
   ⟨msg.length % 16, Nat.mod_lt _ (by norm_num)⟩]

/-- C4 (counterexample): the step-1 digest is NOT the HMAC keyed by the
server seed over message `clientSeed`: at `serverSeed = "a"`,
`clientSeed = "b"`, `nonce = 0` the code keys the HMAC with the combined
string `"a-b-0"` and passes an empty message, which an HMAC instance that
distinguishes its inputs separates from the digest the claim describes. -/
theorem C4_counterexample :
    codeStepOneDigest probeHmac "a" "b" 0 ≠ specStepOneDigest probeHmac "a" "b" ∧
    combinedSeed "a" "b" 0 = "a-b-0" :=
  ⟨by decide, by decide⟩

/-- C4 (amended): step 1 computes its digest as an HMAC-SHA256 call whose
KEY is the combined string `serverSeed-clientSeed-nonce` and whose message
is empty (the code never calls `.update`), and the integer draw `num` is
parsed from the first 13 hex characters of that digest. -/
theorem C4_digest_key_and_parse (H : Hmac) (s c : String) (n : ℕ) :
    codeStepOneDigest H s c n = H (s ++ "-" ++ c ++ "-" ++ toString n) "" ∧
    computeCrashMultiplier H s c n =
      crashMultiplierOfNum (parseHexDigits ((codeStepOneDigest H s c n).take 13)) :=
  ⟨rfl, rfl⟩

/-- An HMAC instance whose digest parses to the degenerate draw `num = 0`
(a digest of 64 zero hex characters). -/
def zeroHmac : Hmac := fun _ _ => List.replicate 64 0

/-- C5 (counterexample): when the parsed draw is `0` the returned
multiplier is `1.00`, which lies BELOW the claimed interval `[1.01, 1000]`. -/
theorem C5_counterexample :
    computeCrashMultiplier zeroHmac "a" "b" 0 = 1 ∧
    ¬ 101 / 100 ≤ computeCrashMultiplier zeroHmac "a" "b" 0 := by
  have h : computeCrashMultiplier zeroHmac "a" "b" 0 = 1 := by
    unfold computeCrashMultiplier
    rw [show parseHexDigits ((codeStepOneDigest zeroHmac "a" "b" 0).take 13) = 0 by decide]
    norm_num [crashMultiplierOfNum]
  exact ⟨h, by rw [h]; norm_num⟩

/-- C5 (amended): the multiplier always has exactly 2 decimal places
(`multiplier` is an integer number of hundredths); whenever the parsed
draw is nonzero it lies in the closed interval `[1.01, 1000]`; in the
degenerate case where the draw is `0` it is exactly `1.00`, below the
1.01 minimum. -/
theorem C5_range (H : Hmac) (s c : String) (n : ℕ) :
    (∃ k : ℤ, computeCrashMultiplier H s c n = (k : ℚ) / 100) ∧
    (parseHexDigits ((codeStepOneDigest H s c n).take 13) = 0 →
      computeCrashMultiplier H s c n = 1) ∧
    (parseHexDigits ((codeStepOneDigest H s c n).take 13) ≠ 0 →
      101 / 100 ≤ computeCrashMultiplier H s c n ∧
      computeCrashMultiplier H s c n ≤ 1000) :=
  crashMultiplierOfNum_spec (parseHexDigits ((codeStepOneDigest H s c n).take 13))

/-- An HMAC instance whose digest parses to the small nonzero draw `num = 1`. -/
def smallDrawHmac : Hmac := fun _ _ => List.replicate 12 0 ++ [1]

/-- Instantiation of `C5_range` at a nonzero draw: for `num = 1` the
returned multiplier lies within `[1.01, 1000]`. -/
theorem C5_range_witness :
    parseHexDigits ((codeStepOneDigest smallDrawHmac "a" "b" 0).take 13) ≠ 0 ∧
    (101 / 100 ≤ computeCrashMultiplier smallDrawHmac "a" "b" 0 ∧
     computeCrashMultiplier smallDrawHmac "a" "b" 0 ≤ 1000) :=
  ⟨by decide, (C5_range smallDrawHmac "a" "b" 0).2.2 (by decide)⟩

/-!
## Round engine (game/GameEngine.js)

The engine's mutable state (`gameState`, `round`, `activeBets`, plus the
external user store consulted through `User.findOne`/`user.save`) is
modelled as an explicit state record; the `placeBet`/`cashOut` socket
handlers and the private phase methods become state transformers.  The
JavaScript `Map` keyed by `String(telegramId)` is an association list in
insertion order (`Map.set` overwrites in place).  Display-only bet fields
(`username`, `firstName`) and the Mongo `userId` handle are omitted; the
player identity is the `telegramId` key throughout.
-/

/-- Phases: `gameState` ranges over `waiting/betting/flying/crashed`
(GameEngine.js), and `round.phase` additionally uses `running` in the
alternative engine revision. -/
inductive GamePhase
  | waiting
  | betting
  | flying
  | running
  | crashed
deriving DecidableEq

/-- An active bet (GameEngine.js lines 91–101): `cashoutMultiplier` and
`cashedOutAt` are absent until the bet is cashed out. -/
structure Bet where
  telegramId : String
  amount : ℚ
  clientSeed : String
  placedAt : ℕ
  cashedOut : Bool
  payout : ℚ
  cashoutMultiplier : Option ℚ
  cashedOutAt : Option ℕ
deriving DecidableEq

/-- A user document from the external balance store (db/database.js). -/
structure UserRec where
  balance : ℚ
  isBanned : Bool
  totalBets : ℕ
  totalWagered : ℚ
  totalWon : ℚ
deriving DecidableEq

/-- A round object (GameEngine.js lines 226–236). -/
structure Round where
  id : String
  serverSeed : String
  seedHash : String
  targetMultiplier : ℚ
  currentMultiplier : ℚ
  startTime : Option ℕ
  endTime : Option ℕ
  phase : GamePhase
  bettingStarted : ℕ
deriving DecidableEq

/-- Engine state: the `GameEngine` instance fields the handlers touch,
plus the external user store. -/
structure EngineState where
  running : Bool
  gameState : GamePhase
  round : Option Round
  activeBets : List (String × Bet)
  users : List (String × UserRec)
deriving DecidableEq

/-- `Map.get(k)` on an association list (first binding wins). -/
def alGet {β : Type} (m : List (String × β)) (k : String) : Option β :=
  match m.find? (fun p => p.1 == k) with
  | some p => some p.2
  | none => none

/-- `Map.set(k, v)`: overwrite an existing binding in place, else append. -/
def alSet {β : Type} (m : List (String × β)) (k : String) (v : β) : List (String × β) :=
  if m.any (fun p => p.1 == k) then
    m.map (fun p => if p.1 == k then (k, v) else p)
  else
    m ++ [(k, v)]

theorem alGet_cons {β : Type} (p : String × β) (m : List (String × β)) (k : String) :
    alGet (p :: m) k = if p.1 = k then some p.2 else alGet m k := by
  unfold alGet
  by_cases hp : p.1 = k
  · rw [List.find?_cons_of_pos _ (by simpa using hp), if_pos hp]
  · rw [List.find?_cons_of_neg _ (by simpa using hp), if_neg hp]

theorem alSet_cons_eq {β : Type} (p : String × β) (m : List (String × β)) (k : String) (v : β)
    (hp : p.1 = k) :
    alSet (p :: m) k v = (k, v) :: m.map (fun q => if q.1 == k then (k, v) else q) := by
  unfold alSet
  have hbeq : (p.1 == k) = true := by simpa using hp
  simp [List.any_cons, hbeq]
  exact fun h => absurd hp h

theorem alSet_cons_ne {β : Type} (p : String × β) (m : List (String × β)) (k : String) (v : β)
    (hp : p.1 ≠ k) : alSet (p :: m) k v = p :: alSet m k v := by
  unfold alSet
  have hbeq : (p.1 == k) = false := by simpa using hp
  by_cases hm : m.any (fun q => q.1 == k)
  · simp [List.any_cons, hbeq, hm]
    exact fun h => absurd h hp
  · simp [List.any_cons, hbeq, hm]

theorem alGet_map_replace {β : Type} (m : List (String × β)) (k j : String) (v : β)
    (hne : j ≠ k) :
    alGet (m.map (fun q => if q.1 == k then (k, v) else q)) j = alGet m j := by
  induction m with
  | nil => rfl
  | cons p m ih =>
    by_cases hp : p.1 = k
    · have hbeq : (p.1 == k) = true := by simpa using hp
      simp only [List.map_cons, hbeq, if_true]
      rw [alGet_cons, alGet_cons, if_neg (fun h => hne h.symm),
        if_neg (fun h => hne (hp.symm.trans h).symm)]
      exact ih
    · have hbeq : (p.1 == k) = false := by simpa using hp
      simp only [List.map_cons, hbeq, Bool.false_eq_true, if_false]
      rw [alGet_cons, alGet_cons]
      by_cases hpj : p.1 = j
      · rw [if_pos hpj, if_pos hpj]
      · rw [if_neg hpj, if_neg hpj]
        exact ih

theorem alGet_alSet_self {β : Type} (m : List (String × β)) (k : String) (v : β) :
    alGet (alSet m k v) k = some v := by
  induction m with
  | nil => simp [alGet, alSet]
  | cons p m ih =>
    by_cases hp : p.1 = k
    · rw [alSet_cons_eq p m k v hp, alGet_cons, if_pos rfl]
    · rw [alSet_cons_ne p m k v hp, alGet_cons, if_neg hp]
      exact ih

theorem alGet_alSet_ne {β : Type} (m : List (String × β)) (k j : String) (v : β)
    (hne : j ≠ k) : alGet (alSet m k v) j = alGet m j := by
  induction m with
  | nil =>
    simp only [alSet, List.any_nil, Bool.false_eq_true, if_false, List.nil_append]
    rw [alGet_cons, if_neg (fun h => hne h.symm)]
  | cons p m ih =>
    by_cases hp : p.1 = k
    · rw [alSet_cons_eq p m k v hp, alGet_cons, alGet_cons,
        if_neg (fun h => hne h.symm), if_neg (fun h => hne (hp.symm.trans h).symm)]
      exact alGet_map_replace m k j v hne
    · rw [alSet_cons_ne p m k v hp, alGet_cons, alGet_cons]
      by_cases hpj : p.1 = j
      · rw [if_pos hpj, if_pos hpj]
      · rw [if_neg hpj, if_neg hpj]
        exact ih

/-- Structured error codes of the GameEngine.js `placeBet` handler. -/
inductive PlaceBetError
  | invalidPhase
  | invalidBet
  | existingBet
  | userNotFound
  | userBanned
  | insufficientFunds
deriving DecidableEq

/-- Error codes of the alternative engine's `placeBet` handler (the
revision with configured min/max bet bounds). -/
inductive PlaceBetMMError
  | noBettingPhase
  | invalidBet
  | userNotFound
  | userBanned
  | insufficientBalance
  | invalidBetAmount
  | alreadyHasBet
deriving DecidableEq

/-- Error codes of the GameEngine.js `cashOut` handler (`serverError`
models the try/catch around a `this.round` access when no round exists). -/
inductive CashOutError
  | noActiveBet
  | alreadyCashed
  | invalidPhase
  | serverError
deriving DecidableEq

/-- Result payload of a `placeBet` call: the confirmed new balance or a
structured error. -/
inductive PlaceBetResult (ε : Type)
  | ok (newBalance : ℚ)
  | err (code : ε)
deriving DecidableEq

/-- `true` on the error constructor. -/
def PlaceBetResult.isErr {ε : Type} : PlaceBetResult ε → Bool
  | .ok _ => false
  | .err _ => true

/-- Result payload of a `cashOut` call. -/
inductive CashOutResult
  | ok (payout : ℚ) (multiplier : ℚ)
  | err (code : CashOutError)
deriving DecidableEq

/-- GameEngine.js `placeBet` socket handler (lines 45–125).  The checks
run in source order: phase (against `gameState`), falsy/min-1 amount,
duplicate bet, then the user-store lookups; on success the stake is
debited, user counters bumped and the bet inserted.  The JS falsy tests
`!telegramId || !amount` are modelled as equality with `""` / `0`. -/
def placeBet (st : EngineState) (telegramId : String) (amount : ℚ) (clientSeed : String)
    (now : ℕ) : PlaceBetResult PlaceBetError × EngineState :=
  if st.gameState ≠ .betting then (.err .invalidPhase, st)
  else if telegramId = "" ∨ amount = 0 ∨ amount < 1 then (.err .invalidBet, st)
  else if (alGet st.activeBets telegramId).isSome then (.err .existingBet, st)
  else
    match alGet st.users telegramId with
    | none => (.err .userNotFound, st)
    | some u =>
      if u.isBanned then (.err .userBanned, st)
      else if u.balance < amount then (.err .insufficientFunds, st)
      else
        let u' : UserRec := { u with
          balance := u.balance - amount,
          totalBets := u.totalBets + 1,
          totalWagered := u.totalWagered + amount }
        let bet : Bet :=
          { telegramId := telegramId, amount := amount,
            clientSeed := clientSeed, placedAt := now, cashedOut := false,
            payout := 0, cashoutMultiplier := none, cashedOutAt := none }
        (.ok u'.balance,
          { st with users := alSet st.users telegramId u',
                    activeBets := alSet st.activeBets telegramId bet })

/-- The alternative engine revision's `placeBet` handler (the file with
`MIN_BET`/`MAX_BET`, lines 39–115).  Checks in source order: betting
phase (against `round.phase`), falsy data, user lookup / ban / balance,
configured `[minBet, maxBet]` bounds, duplicate bet. -/
def placeBetMinMax (minBet maxBet : ℚ) (st : EngineState) (telegramId : String)
    (amount : ℚ) (clientSeed : String) (now : ℕ) :
    PlaceBetResult PlaceBetMMError × EngineState :=
  match st.round with
  | none => (.err .noBettingPhase, st)
  | some r =>
    if r.phase ≠ .betting then (.err .noBettingPhase, st)
    else if telegramId = "" ∨ amount = 0 then (.err .invalidBet, st)
    else
      match alGet st.users telegramId with
      | none => (.err .userNotFound, st)
      | some u =>
        if u.isBanned then (.err .userBanned, st)
        else if u.balance < amount then (.err .insufficientBalance, st)
        else if amount < minBet ∨ amount > maxBet then (.err .invalidBetAmount, st)
        else if (alGet st.activeBets telegramId).isSome then (.err .alreadyHasBet, st)
        else
          let u' : UserRec := { u with
            balance := u.balance - amount,
            totalBets := u.totalBets + 1,
            totalWagered := u.totalWagered + amount }
          let bet : Bet :=
            { telegramId := telegramId, amount := amount,
              clientSeed := clientSeed, placedAt := now, cashedOut := false,
              payout := 0, cashoutMultiplier := none, cashedOutAt := none }
          (.ok u'.balance,
            { st with users := alSet st.users telegramId u',
                      activeBets := alSet st.activeBets telegramId bet })

/-- GameEngine.js `cashOut` socket handler (lines 127–195).  Checks in
source order: active bet, already-cashed flag, flight phase; then the
payout is `Math.floor(bet.amount * currentMultiplier)`, the bet flips to
cashed-out with payout/multiplier recorded, and the user (when found) is
credited. -/
def cashOut (st : EngineState) (telegramId : String) (now : ℕ) :
    CashOutResult × EngineState :=
  match alGet st.activeBets telegramId with
  | none => (.err .noActiveBet, st)
  | some bet =>
    if bet.cashedOut then (.err .alreadyCashed, st)
    else if st.gameState ≠ .flying then (.err .invalidPhase, st)
    else
      match st.round with
      | none => (.err .serverError, st)
      | some r =>
        let multiplier := r.currentMultiplier
        let payout : ℚ := ((⌊bet.amount * multiplier⌋ : ℤ) : ℚ)
        let bet' : Bet :=
          { bet with
            cashedOut := true, payout := payout,
            cashoutMultiplier := some multiplier, cashedOutAt := some now }
        let users' := match alGet st.users telegramId with
          | none => st.users
          | some u => alSet st.users telegramId
              { u with balance := u.balance + payout, totalWon := u.totalWon + payout }
        (.ok payout multiplier,
          { st with activeBets := alSet st.activeBets telegramId bet',
                    users := users' })

/-- GameEngine.js `_startNewRound` (lines 216–262): generate the provably
fair data, compute `targetMultiplier` immediately via
`computeCrashMultiplier(serverSeed, '')` (nonce defaulting to 0), install
a fresh betting-phase round and clear the bet registry.  The fresh seed
and round id (produced by `crypto.randomBytes`/`uuidv4`) and the seed
hash function are inputs of the model. -/
def startNewRound (H : Hmac) (hashFn : String → String) (serverSeed roundId : String)
    (st : EngineState) (now : ℕ) : EngineState :=
  if st.running = false then st
  else
    { st with
      round := some
        { id := roundId, serverSeed := serverSeed, seedHash := hashFn serverSeed,
          targetMultiplier := computeCrashMultiplier H serverSeed "" 0,
          currentMultiplier := 1, startTime := none, endTime := none,
          phase := .betting, bettingStarted := now },
      activeBets := [],
      gameState := .betting }

/-- GameEngine.js `_startFlight` (lines 264–284). -/
def startFlight (st : EngineState) (now : ℕ) : EngineState :=
  match st.round with
  | none => st
  | some r =>
    if st.running = false then st
    else
      { st with
        round := some { r with phase := .flying, startTime := some now },
        gameState := .flying }

/-- The state portion of GameEngine.js `_crashGame` (lines 325–343):
stop ticking, mark the round and `gameState` crashed, stamp `endTime`.
The persistence/settlement effects are modelled by `crashSettlement`
below. -/
def crashGame (st : EngineState) (now : ℕ) : EngineState :=
  match st.round with
  | none => st
  | some r =>
    if st.gameState ≠ .flying then st
    else
      { st with
        round := some { r with phase := .crashed, endTime := some now },
        gameState := .crashed }

/-- GameEngine.js `_updateMultiplier` (lines 286–308) as a function of the
progress ratio sampled this tick (the ratio itself is computed by
`_calculateProgress`, modelled over `ℝ` below): set `currentMultiplier`
to `min (1 + (target - 1) * ratio) target` and crash once it reaches
`target * 0.999`. -/
def updateMultiplier (st : EngineState) (ratio : ℚ) (now : ℕ) : EngineState :=
  match st.round with
  | none => st
  | some r =>
    if st.gameState ≠ .flying then st
    else
      let cur := min (1 + (r.targetMultiplier - 1) * ratio) r.targetMultiplier
      let st' := { st with round := some { r with currentMultiplier := cur } }
      if cur ≥ r.targetMultiplier * (999 / 1000) then crashGame st' now else st'

/-- GameEngine.js `forceEndRound` (lines 438–443). -/
def forceEndRound (st : EngineState) (now : ℕ) : EngineState :=
  if st.gameState = .flying ∧ st.round.isSome then crashGame st now else st

/-- GameEngine.js `adjustMultiplier` (lines 445–450): while flying, the
admin overwrites `targetMultiplier` with `Math.max(1.01, Math.min(100,
newTarget))`. -/
def adjustMultiplier (st : EngineState) (newTarget : ℚ) : EngineState :=
  match st.round with
  | none => st
  | some r =>
    if st.gameState = .flying then
      { st with round := some { r with targetMultiplier := max (101 / 100) (min 100 newTarget) } }
    else st

/-- The target multiplier of the current round, if any. -/
def roundTarget (st : EngineState) : Option ℚ := st.round.map Round.targetMultiplier

/-- A loss ledger entry written at settlement (a `Transaction.create`
with `type: 'loss'`), keyed by the bettor's identity. -/
structure LedgerEntry where
  telegramId : String
  amount : ℚ
deriving DecidableEq

/-- GameEngine.js `_processLosingBets` (lines 389–409): iterate the
not-cashed-out bets; each `Transaction.create` is wrapped in its own
try/catch, so one failed write (modelled by `ledgerOk`) drops only that
entry and the loop continues. -/
def processLosingBets (ledgerOk : String → Bool) (bets : List (String × Bet)) :
    List LedgerEntry :=
  (bets.filter (fun p => !p.2.cashedOut)).filterMap
    (fun p => if ledgerOk p.1 then some ⟨p.1, p.2.amount⟩ else none)

/-- The observable settlement effects of one run of `_crashGame`
(lines 325–387). -/
structure SettlementOutcome where
  lossEntries : List LedgerEntry
  archiveSaved : Bool
  nextRoundScheduled : Bool
deriving DecidableEq

/-- The settlement/persistence portion of GameEngine.js `_crashGame`:
the whole body sits in one try/catch; `GameRound.create` (the archive
write, modelled by `archiveOk`) runs BEFORE `_processLosingBets`, so if
it throws, control jumps to the catch block — which only schedules the
next round — and the loss entries are never written.  Per-bet ledger
failures are caught inside `_processLosingBets` and do not propagate.
Both the try and the catch path schedule the next round (after 3000 ms
resp. 5000 ms). -/
def crashSettlement (archiveOk : Bool) (ledgerOk : String → Bool)
    (bets : List (String × Bet)) : SettlementOutcome :=
  if archiveOk then
    { lossEntries := processLosingBets ledgerOk bets,
      archiveSaved := true,
      nextRoundScheduled := true }
  else
    { lossEntries := [],
      archiveSaved := false,
      nextRoundScheduled := true }

/-- A `cashOut` call finding an already-cashed bet returns the
already-cashed error and leaves the state untouched. -/
theorem cashOut_already_cashed (st : EngineState) (id : String) (t : ℕ) (b : Bet)
    (hb : alGet st.activeBets id = some b) (hc : b.cashedOut = true) :
    cashOut st id t = (CashOutResult.err CashOutError.alreadyCashed, st) := by
  simp only [cashOut, hb, hc, if_true]

/-- C1: at-most-once cashout.  For an identity holding an active
not-yet-cashed bet while the round is in the flight phase, the first
`cashOut` call succeeds — flipping `cashedOut` from `false` to `true` and
recording the payout and multiplier — and a second `cashOut` call for
the same identity is rejected with the already-cashed error, leaving the
entire engine state (bet fields and user balances included) unchanged. -/
theorem C1_at_most_once_cashout (st : EngineState) (id : String) (t₁ t₂ : ℕ)
    (bet : Bet) (r : Round)
    (hb : alGet st.activeBets id = some bet) (hnc : bet.cashedOut = false)
    (hp : st.gameState = GamePhase.flying) (hr : st.round = some r) :
    (cashOut st id t₁).1 =
      CashOutResult.ok ((⌊bet.amount * r.currentMultiplier⌋ : ℤ) : ℚ) r.currentMultiplier ∧
    alGet (cashOut st id t₁).2.activeBets id = some
      { bet with
        cashedOut := true,
        payout := ((⌊bet.amount * r.currentMultiplier⌋ : ℤ) : ℚ),
        cashoutMultiplier := some r.currentMultiplier, cashedOutAt := some t₁ } ∧
    (cashOut (cashOut st id t₁).2 id t₂).1 =
      CashOutResult.err CashOutError.alreadyCashed ∧
    (cashOut (cashOut st id t₁).2 id t₂).2 = (cashOut st id t₁).2 := by
  have hfly : ¬ st.gameState ≠ GamePhase.flying := by simp [hp]
  have h2 : alGet (cashOut st id t₁).2.activeBets id = some
      { bet with
        cashedOut := true,
        payout := ((⌊bet.amount * r.currentMultiplier⌋ : ℤ) : ℚ),
        cashoutMultiplier := some r.currentMultiplier, cashedOutAt := some t₁ } := by
    simp only [cashOut, hb, hnc, hr, hfly, if_false, Bool.false_eq_true, if_neg,
      not_false_eq_true]
    exact alGet_alSet_self _ _ _
  have hsecond : cashOut (cashOut st id t₁).2 id t₂ =
      (CashOutResult.err CashOutError.alreadyCashed, (cashOut st id t₁).2) :=
    cashOut_already_cashed _ id t₂ _ h2 rfl
  refine ⟨?_, h2, ?_, ?_⟩
  · simp only [cashOut, hb, hnc, hr, hfly, if_false, Bool.false_eq_true, if_neg,
      not_false_eq_true]
  · rw [hsecond]
  · rw [hsecond]

/-- A concrete in-flight bet used to instantiate the cashout theorems. -/
def betW : Bet :=
  { telegramId := "7", amount := 100, clientSeed := "", placedAt := 0,
    cashedOut := false, payout := 0, cashoutMultiplier := none, cashedOutAt := none }

/-- A concrete in-flight round at `currentMultiplier = 1.50`. -/
def roundW : Round :=
  { id := "r1", serverSeed := "s", seedHash := "h", targetMultiplier := 2,
    currentMultiplier := 3 / 2, startTime := some 0, endTime := none,
    phase := GamePhase.flying, bettingStarted := 0 }

/-- A concrete engine state in the flight phase with one active bet. -/
def stW : EngineState :=
  { running := true, gameState := GamePhase.flying, round := some roundW,
    activeBets := [("7", betW)],
    users := [("7", { balance := 0, isBanned := false, totalBets := 1,
                      totalWagered := 100, totalWon := 0 })] }

/-- Instantiation of `C1_at_most_once_cashout`: a bet of 100 at
multiplier 1.50 cashes out once for 150 and the second attempt is
rejected as already-cashed with the state unchanged. -/
theorem C1_witness :
    (cashOut stW "7" 5).1 =
      CashOutResult.ok ((⌊betW.amount * roundW.currentMultiplier⌋ : ℤ) : ℚ)
        roundW.currentMultiplier ∧
    (cashOut (cashOut stW "7" 5).2 "7" 6).1 =
      CashOutResult.err CashOutError.alreadyCashed ∧
    (cashOut (cashOut stW "7" 5).2 "7" 6).2 = (cashOut stW "7" 5).2 ∧
    ((⌊betW.amount * roundW.currentMultiplier⌋ : ℤ) : ℚ) = 150 :=
  ⟨(C1_at_most_once_cashout stW "7" 5 6 betW roundW rfl rfl rfl rfl).1,
   (C1_at_most_once_cashout stW "7" 5 6 betW roundW rfl rfl rfl rfl).2.2.1,
   (C1_at_most_once_cashout stW "7" 5 6 betW roundW rfl rfl rfl rfl).2.2.2,
   by norm_num [betW, roundW]⟩

/-- The cashout payout formula of the earlier engine revisions (the
`'running'`-phase files): `Math.round(bet.amount * (currentMultiplier ||
1) * 100) / 100` — round to 2 decimal places, with falsy multiplier
defaulting to 1. -/
def legacyCashoutPayout (amount mult : ℚ) : ℚ :=
  jsRound2 (amount * (if mult = 0 then 1 else mult))

/-- A concrete in-flight round at `currentMultiplier = 1.55`. -/
def roundC6 : Round :=
  { id := "r6", serverSeed := "s", seedHash := "h", targetMultiplier := 2,
    currentMultiplier := 31 / 20, startTime := some 0, endTime := none,
    phase := GamePhase.flying, bettingStarted := 0 }

/-- A concrete active bet of amount 10. -/
def betC6 : Bet :=
  { telegramId := "9", amount := 10, clientSeed := "", placedAt := 0,
    cashedOut := false, payout := 0, cashoutMultiplier := none, cashedOutAt := none }

/-- A concrete flight state whose bet/multiplier separate floor from
round-to-2-decimals: amount 10, `currentMultiplier` 1.55. -/
def stC6 : EngineState :=
  { running := true, gameState := GamePhase.flying, round := some roundC6,
    activeBets := [("9", betC6)], users := [] }

/-- C6 (counterexample): GameEngine.js computes the payout with
`Math.floor(amount * multiplier)`, not round-to-2-decimals: a bet of 10
cashed out at `currentMultiplier = 1.55` pays 15, while the claimed
formula `round(10 * 1.55, 2)` gives 15.5. -/
theorem C6_counterexample :
    (cashOut stC6 "9" 0).1 = CashOutResult.ok 15 (31 / 20) ∧
    jsRound2 (10 * (31 / 20)) = 31 / 2 ∧
    (15 : ℚ) ≠ 31 / 2 := by
  refine ⟨?_, by norm_num [jsRound2], by norm_num⟩
  have h : (⌊(10 : ℚ) * (31 / 20)⌋ : ℤ) = 15 := by norm_num
  simp only [cashOut, stC6, roundC6, betC6, alGet, List.find?]
  norm_num [h]

/-- C6 (amended): for every bet cashed out during the flight phase,
GameEngine.js records `payout = Math.floor(amount * currentMultiplier)`
(a whole-unit floor, NOT round-to-2-decimals as the earlier revisions'
`legacyCashoutPayout` does); a bet of 100 cashed out at
`currentMultiplier = 1.50` still yields payout 150. -/
theorem C6_payout_formula (st : EngineState) (id : String) (now : ℕ)
    (bet : Bet) (r : Round)
    (hb : alGet st.activeBets id = some bet) (hnc : bet.cashedOut = false)
    (hp : st.gameState = GamePhase.flying) (hr : st.round = some r) :
    (cashOut st id now).1 =
      CashOutResult.ok ((⌊bet.amount * r.currentMultiplier⌋ : ℤ) : ℚ) r.currentMultiplier ∧
    (alGet (cashOut st id now).2.activeBets id).map Bet.payout =
      some ((⌊bet.amount * r.currentMultiplier⌋ : ℤ) : ℚ) := by
  have hfly : ¬ st.gameState ≠ GamePhase.flying := by simp [hp]
  constructor
  · simp only [cashOut, hb, hnc, hr, hfly, if_false, Bool.false_eq_true, if_neg,
      not_false_eq_true]
  · simp only [cashOut, hb, hnc, hr, hfly, if_false, Bool.false_eq_true, if_neg,
      not_false_eq_true]
    rw [alGet_alSet_self]
    rfl

/-- Instantiation of `C6_payout_formula` at the spec's own example: a bet
of 100 cashed out at multiplier 1.50 pays exactly 150, and the legacy
round-to-2 formula agrees on this input. -/
theorem C6_payout_witness :
    (cashOut stW "7" 5).1 =
      CashOutResult.ok ((⌊betW.amount * roundW.currentMultiplier⌋ : ℤ) : ℚ)
        roundW.currentMultiplier ∧
    ((⌊betW.amount * roundW.currentMultiplier⌋ : ℤ) : ℚ) = 150 ∧
    legacyCashoutPayout 100 (3 / 2) = 150 :=
  ⟨(C6_payout_formula stW "7" 5 betW roundW rfl rfl rfl rfl).1,
   by norm_num [betW, roundW],
   by norm_num [legacyCashoutPayout, jsRound2]⟩

/-- The user-store rejection test of the min/max `placeBet` handler
(alternative engine revision lines 50–59): missing user, banned user, or
balance below the wager. -/
def userRejects (users : List (String × UserRec)) (id : String) (amount : ℚ) : Bool :=
  match alGet users id with
  | none => true
  | some u => u.isBanned || decide (u.balance < amount)

/-- C3 (amended): the min/max `placeBet` handler rejects — leaving the
whole state unchanged — exactly when the round phase is not betting, the
identity or amount is falsy, the user store rejects (missing / banned /
insufficient balance), the amount is outside `[minBet, maxBet]`, or the
identity already holds a bet; a successful call happens only in the
betting phase with an in-bounds amount and no prior bet, inserts exactly
one bet for the identity and leaves all other registrations unchanged —
hence every identity holds at most one bet per round. -/
theorem C3_placeBet_guards (minBet maxBet : ℚ) (st : EngineState) (id : String)
    (amount : ℚ) (cs : String) (now : ℕ) :
    ((placeBetMinMax minBet maxBet st id amount cs now).1.isErr = true ↔
      (st.round.map Round.phase ≠ some GamePhase.betting ∨ id = "" ∨ amount = 0 ∨
       userRejects st.users id amount = true ∨
       amount < minBet ∨ maxBet < amount ∨ (alGet st.activeBets id).isSome = true)) ∧
    ((placeBetMinMax minBet maxBet st id amount cs now).1.isErr = true →
      (placeBetMinMax minBet maxBet st id amount cs now).2 = st) ∧
    ((placeBetMinMax minBet maxBet st id amount cs now).1.isErr = false →
      st.round.map Round.phase = some GamePhase.betting ∧
      minBet ≤ amount ∧ amount ≤ maxBet ∧ alGet st.activeBets id = none ∧
      alGet (placeBetMinMax minBet maxBet st id amount cs now).2.activeBets id =
        some { telegramId := id, amount := amount, clientSeed := cs, placedAt := now,
               cashedOut := false, payout := 0, cashoutMultiplier := none,
               cashedOutAt := none } ∧
      ∀ j, j ≠ id →
        alGet (placeBetMinMax minBet maxBet st id amount cs now).2.activeBets j =
          alGet st.activeBets j) := by
  rcases hround : st.round with _ | r
  · simp [placeBetMinMax, PlaceBetResult.isErr, hround]
  · by_cases hphase : r.phase = GamePhase.betting
    · by_cases hid : id = "" ∨ amount = 0
      · refine ⟨?_, ?_, ?_⟩ <;>
          simp [placeBetMinMax, PlaceBetResult.isErr, hround, hphase, hid] <;> tauto
      · obtain ⟨hid1, hid2⟩ := not_or.mp hid
        rcases hu : alGet st.users id with _ | u
        · refine ⟨?_, ?_, ?_⟩ <;>
            simp [placeBetMinMax, PlaceBetResult.isErr, hround, hphase, hid1, hid2,
              userRejects, hu]
        · by_cases hban : u.isBanned
          · refine ⟨?_, ?_, ?_⟩ <;>
              simp [placeBetMinMax, PlaceBetResult.isErr, hround, hphase, hid1, hid2,
                userRejects, hu, hban]
          · by_cases hbal : u.balance < amount
            · refine ⟨?_, ?_, ?_⟩ <;>
                simp [placeBetMinMax, PlaceBetResult.isErr, hround, hphase, hid1, hid2,
                  userRejects, hu, hban, hbal]
            · by_cases hmm : amount < minBet ∨ amount > maxBet
              · refine ⟨?_, ?_, ?_⟩ <;>
                  simp [placeBetMinMax, PlaceBetResult.isErr, hround, hphase, hid1, hid2,
                    userRejects, hu, hban, hbal, hmm] <;> tauto
              · obtain ⟨hmm1, hmm2⟩ := not_or.mp hmm
                by_cases hdup : (alGet st.activeBets id).isSome = true
                · refine ⟨?_, ?_, ?_⟩ <;>
                    simp [placeBetMinMax, PlaceBetResult.isErr, hround, hphase, hid1, hid2,
                      userRejects, hu, hban, hbal, hmm1, hmm2, hdup]
                · have hnone : alGet st.activeBets id = none :=
                    Option.not_isSome_iff_eq_none.mp (by simpa using hdup)
                  refine ⟨?_, ?_, ?_⟩
                  · simp [placeBetMinMax, PlaceBetResult.isErr, hround, hphase, hid1, hid2,
                      userRejects, hu, hban, hbal, hmm1, hmm2, hdup, not_lt.mp hmm1,
                      not_lt.mp hmm2]
                  · simp [placeBetMinMax, PlaceBetResult.isErr, hround, hphase, hid1, hid2,
                      userRejects, hu, hban, hbal, hmm1, hmm2, hdup]
                  · intro _
                    refine ⟨by simp [hround, hphase], not_lt.mp hmm1, not_lt.mp hmm2,
                      hnone, ?_, ?_⟩
                    · simp [placeBetMinMax, hround, hphase, hid1, hid2, hu, hban, hbal,
                        hmm1, hmm2, hdup]
                      exact alGet_alSet_self _ _ _
                    · intro j hj
                      simp [placeBetMinMax, hround, hphase, hid1, hid2, hu, hban, hbal,
                        hmm1, hmm2, hdup]
                      exact alGet_alSet_ne _ _ _ _ hj
    · refine ⟨?_, ?_, ?_⟩ <;>
        simp [placeBetMinMax, PlaceBetResult.isErr, hround, hphase]

/-- A betting-phase round for the `placeBet` states. -/
def roundC3 : Round :=
  { id := "r3", serverSeed := "s", seedHash := "h", targetMultiplier := 2,
    currentMultiplier := 1, startTime := none, endTime := none,
    phase := GamePhase.betting, bettingStarted := 0 }

/-- A betting-phase state whose only user has balance 5 (below the wager
used in the counterexample) and no active bet. -/
def stC3 : EngineState :=
  { running := true, gameState := GamePhase.betting, round := some roundC3,
    activeBets := [],
    users := [("7", { balance := 5, isBanned := false, totalBets := 0,
                      totalWagered := 0, totalWon := 0 })] }

/-- C3 (counterexample): with `minBet = 10`, `maxBet = 10000`, a wager of
10 in the betting phase by an identity with no existing bet is rejected
(insufficient balance), even though none of the claim's three reject
conditions — wrong phase, out-of-bounds amount, duplicate bet — holds:
"rejects exactly when" is false on the code. -/
theorem C3_counterexample :
    (placeBetMinMax 10 10000 stC3 "7" 10 "" 0).1 =
      PlaceBetResult.err PlaceBetMMError.insufficientBalance ∧
    (placeBetMinMax 10 10000 stC3 "7" 10 "" 0).2 = stC3 ∧
    stC3.round.map Round.phase = some GamePhase.betting ∧
    (10 : ℚ) ≤ 10 ∧ (10 : ℚ) ≤ 10000 ∧ (0 : ℚ) < 10 ∧
    alGet stC3.activeBets "7" = none := by
  have hbal : ((5 : ℚ) < 10) = True := by norm_num
  refine ⟨?_, ?_, rfl, by norm_num, by norm_num, by norm_num, rfl⟩ <;>
    simp [placeBetMinMax, stC3, roundC3, alGet, List.find?, hbal]

/-- Instantiation of `C3_placeBet_guards` on a successful wager: identity
"8" with balance 100 places 10 within bounds; the call is accepted and the
bet registered. -/
def stC3ok : EngineState :=
  { running := true, gameState := GamePhase.betting, round := some roundC3,
    activeBets := [],
    users := [("8", { balance := 100, isBanned := false, totalBets := 0,
                      totalWagered := 0, totalWon := 0 })] }

/-- Witness for `C3_placeBet_guards`: on `stC3ok` the handler accepts, so
the theorem's success clause yields the in-bounds facts and the inserted
registration. -/
theorem C3_guards_witness :
    stC3ok.round.map Round.phase = some GamePhase.betting ∧
    (10 : ℚ) ≤ 10 ∧ (10 : ℚ) ≤ 10000 ∧ alGet stC3ok.activeBets "8" = none ∧
    alGet (placeBetMinMax 10 10000 stC3ok "8" 10 "" 3).2.activeBets "8" =
      some { telegramId := "8", amount := 10, clientSeed := "", placedAt := 3,
             cashedOut := false, payout := 0, cashoutMultiplier := none,
             cashedOutAt := none } ∧
    ∀ j, j ≠ "8" →
      alGet (placeBetMinMax 10 10000 stC3ok "8" 10 "" 3).2.activeBets j =
        alGet stC3ok.activeBets j :=
  (C3_placeBet_guards 10 10000 stC3ok "8" 10 "" 3).2.2 (by
    simp [placeBetMinMax, stC3ok, roundC3, alGet, List.find?, PlaceBetResult.isErr]
    norm_num)

/-- A concrete in-flight state with `targetMultiplier = 2` used to
exercise the admin override. -/
def stC7 : EngineState :=
  { running := true, gameState := GamePhase.flying,
    round := some { id := "r7", serverSeed := "s", seedHash := "h",
                    targetMultiplier := 2, currentMultiplier := 1,
                    startTime := some 0, endTime := none,
                    phase := GamePhase.flying, bettingStarted := 0 },
    activeBets := [], users := [] }

/-- C7 (counterexample): `adjustMultiplier` DOES mutate a live round's
`targetMultiplier`: on a flying round with target 2 the admin call
`adjustMultiplier(50)` rewrites it to 50. -/
theorem C7_counterexample :
    roundTarget stC7 = some 2 ∧
    roundTarget (adjustMultiplier stC7 50) = some 50 ∧
    (some (50 : ℚ) ≠ some (2 : ℚ)) := by
  refine ⟨rfl, ?_, by norm_num⟩
  simp [adjustMultiplier, roundTarget, stC7]
  norm_num [max_eq_right, min_eq_right]

/-- C7 (amended): `targetMultiplier` is computed exactly once at round
creation (`_startNewRound` derives it from the fresh seed via
`computeCrashMultiplier`) and is preserved by every engine operation —
`placeBet`, `cashOut`, `_startFlight`, multiplier ticks, `_crashGame`,
`forceEndRound` — EXCEPT the admin `adjustMultiplier`, which while flying
overwrites it with the clamp `max(1.01, min(100, newTarget))`. -/
theorem C7_target_immutable (H : Hmac) (hashFn : String → String)
    (seed rid : String) (st : EngineState) (id cs : String) (amt ratio x : ℚ)
    (now : ℕ) :
    roundTarget (startNewRound H hashFn seed rid { st with running := true } now) =
      some (computeCrashMultiplier H seed "" 0) ∧
    roundTarget (placeBet st id amt cs now).2 = roundTarget st ∧
    roundTarget (cashOut st id now).2 = roundTarget st ∧
    roundTarget (startFlight st now) = roundTarget st ∧
    roundTarget (updateMultiplier st ratio now) = roundTarget st ∧
    roundTarget (crashGame st now) = roundTarget st ∧
    roundTarget (forceEndRound st now) = roundTarget st ∧
    roundTarget (adjustMultiplier st x) =
      (if st.gameState = GamePhase.flying then
        (roundTarget st).map (fun _ => max (101 / 100) (min 100 x))
      else roundTarget st) := by
  have hcrash : ∀ (s : EngineState) (t : ℕ),
      roundTarget (crashGame s t) = roundTarget s := by
    intro s t
    rcases hr : s.round with _ | r
    · simp [crashGame, roundTarget, hr]
    · by_cases hg : s.gameState ≠ GamePhase.flying
      · simp [crashGame, roundTarget, hr, hg]
      · simp [crashGame, roundTarget, hr, hg]
  refine ⟨?_, ?_, ?_, ?_, ?_, hcrash st now, ?_, ?_⟩
  · simp [startNewRound, roundTarget]
  · by_cases h1 : st.gameState ≠ GamePhase.betting
    · simp [placeBet, roundTarget, h1]
    · by_cases h2 : id = "" ∨ amt = 0 ∨ amt < 1
      · simp [placeBet, roundTarget, h1, h2]
      · by_cases h3 : (alGet st.activeBets id).isSome
        · simp [placeBet, roundTarget, h1, h2, h3]
        · rcases hu : alGet st.users id with _ | u
          · simp [placeBet, roundTarget, h1, h2, h3, hu]
          · by_cases h4 : u.isBanned <;> by_cases h5 : u.balance < amt <;>
              simp [placeBet, roundTarget, h1, h2, h3, hu, h4, h5]
  · rcases hb : alGet st.activeBets id with _ | bet
    · simp [cashOut, roundTarget, hb]
    · by_cases h1 : bet.cashedOut
      · simp [cashOut, roundTarget, hb, h1]
      · by_cases h2 : st.gameState ≠ GamePhase.flying
        · simp [cashOut, roundTarget, hb, h1, h2]
        · rcases hr : st.round with _ | r <;>
            simp [cashOut, roundTarget, hb, h1, h2, hr]
  · rcases hr : st.round with _ | r
    · simp [startFlight, roundTarget, hr]
    · by_cases hrun : st.running = false <;>
        simp [startFlight, roundTarget, hr, hrun]
  · rcases hr : st.round with _ | r
    · simp [updateMultiplier, roundTarget, hr]
    · by_cases hg : st.gameState ≠ GamePhase.flying
      · simp [updateMultiplier, roundTarget, hr, hg]
      · simp only [updateMultiplier, hr, hg, if_false]
        split_ifs with hc
        · rw [hcrash]
          simp [roundTarget, hr]
        · simp [roundTarget, hr]
  · unfold forceEndRound
    split_ifs with h
    · exact hcrash st now
    · rfl
  · rcases hr : st.round with _ | r
    · by_cases hg : st.gameState = GamePhase.flying <;>
        simp [adjustMultiplier, roundTarget, hr, hg]
    · by_cases hg : st.gameState = GamePhase.flying <;>
        simp [adjustMultiplier, roundTarget, hr, hg]

/-- A losing (never cashed out) bet of 50 by identity "7". -/
def lostBet : Bet :=
  { telegramId := "7", amount := 50, clientSeed := "", placedAt := 0,
    cashedOut := false, payout := 0, cashoutMultiplier := none, cashedOutAt := none }

/-- C9 (counterexample): when the archive write (`GameRound.create`)
fails, `_crashGame` jumps to its catch block BEFORE `_processLosingBets`
runs, so the losing bet of identity "7" receives NO loss ledger entry —
settlement of the remaining bets does not complete — although the next
round is still scheduled. -/
theorem C9_counterexample :
    (crashSettlement false (fun _ => true) [("7", lostBet)]).lossEntries = [] ∧
    lostBet.cashedOut = false ∧
    (crashSettlement false (fun _ => true) [("7", lostBet)]).nextRoundScheduled = true :=
  ⟨rfl, rfl, rfl⟩

/-- C9 (amended): the next round is always scheduled, whether or not the
archive write or any ledger write fails; when the archive write succeeds,
every not-cashed-out bet whose own ledger write succeeds receives its
loss entry even if other bets' writes fail; but when the archive write
fails the remaining loss entries are skipped entirely. -/
theorem C9_settlement_best_effort (archiveOk : Bool) (ledgerOk : String → Bool)
    (bets : List (String × Bet)) :
    (crashSettlement archiveOk ledgerOk bets).nextRoundScheduled = true ∧
    (archiveOk = true → ∀ (id : String) (b : Bet), (id, b) ∈ bets →
      b.cashedOut = false → ledgerOk id = true →
      ({ telegramId := id, amount := b.amount } : LedgerEntry) ∈
        (crashSettlement archiveOk ledgerOk bets).lossEntries) ∧
    (archiveOk = false → (crashSettlement archiveOk ledgerOk bets).lossEntries = []) := by
  refine ⟨?_, ?_, ?_⟩
  · cases archiveOk <;> rfl
  · intro ha id b hmem hlost hok
    subst ha
    simp only [crashSettlement, if_true]
    unfold processLosingBets
    apply List.mem_filterMap.mpr
    refine ⟨(id, b), ?_, ?_⟩
    · exact List.mem_filter.mpr ⟨hmem, by simp [hlost]⟩
    · simp [hok]
  · intro ha
    subst ha
    rfl

/-- A second losing bet, for identity "8". -/
def lostBet8 : Bet :=
  { telegramId := "8", amount := 20, clientSeed := "", placedAt := 0,
    cashedOut := false, payout := 0, cashoutMultiplier := none, cashedOutAt := none }

/-- Witness for `C9_settlement_best_effort`: archive succeeds, identity
"8"'s ledger write fails, yet identity "7" still receives its loss entry
and the next round is scheduled. -/
theorem C9_settlement_witness :
    (crashSettlement true (fun k => k != "8") [("7", lostBet), ("8", lostBet8)]).nextRoundScheduled
      = true ∧
    ({ telegramId := "7", amount := lostBet.amount } : LedgerEntry) ∈
      (crashSettlement true (fun k => k != "8") [("7", lostBet), ("8", lostBet8)]).lossEntries :=
  ⟨(C9_settlement_best_effort true (fun k => k != "8") [("7", lostBet), ("8", lostBet8)]).1,
   (C9_settlement_best_effort true (fun k => k != "8") [("7", lostBet), ("8", lostBet8)]).2.1
     rfl "7" lostBet (by simp) rfl rfl⟩

/-!
The flight easing curve (`_calculateProgress`, GameEngine.js lines
310–323) uses `Math.log`, a fractional `Math.pow` exponent and two fresh
`Math.random()` samples per tick, so it is modelled over `ℝ`; `rDur` and
`rExp` are the two random draws (each in `[0, 1)`).
-/

/-- GameEngine.js `_calculateProgress(elapsed)`:
`baseDuration = minGameDuration (2000) + log(target) * 3000 + random * 2000`;
`progress = elapsed / baseDuration`;
result `min(1, progress ^ (0.5 + random * 0.3))`. -/
noncomputable def calculateProgress (targetMultiplier elapsed rDur rExp : ℝ) : ℝ :=
  min 1 ((elapsed / (2000 + Real.log targetMultiplier * 3000 + rDur * 2000)) ^
    ((1 / 2 : ℝ) + rExp * (3 / 10)))

/-- The value `_updateMultiplier` (lines 286–308) assigns to
`currentMultiplier` on one tick:
`min(1 + (target - 1) * progressRatio, target)`. -/
noncomputable def updateMultiplierValue (targetMultiplier elapsed rDur rExp : ℝ) : ℝ :=
  min (1 + (targetMultiplier - 1) * calculateProgress targetMultiplier elapsed rDur rExp)
    targetMultiplier

/-- C8 (counterexample): the value assigned to `currentMultiplier` is
NOT non-decreasing across successive ticks, because `_calculateProgress`
resamples its random jitter every tick.  The scenario is realizable in
the engine: with target 2, the tick at elapsed 2000 ms whose duration
draw is 0 assigns `1 + √(2000/d₁) ≈ 1.70`, which is strictly below the
crash threshold `target * 0.999 = 1.998` of line 305, so `_crashGame` is
not invoked and the interval keeps running; the next tick, 50 ms later
(elapsed 2050 ms), with duration draw 0.9 then assigns a strictly
smaller multiplier. -/
theorem C8_counterexample :
    (2000 : ℝ) < 2050 ∧
    updateMultiplierValue 2 2000 0 0 < 2 * (999 / 1000) ∧
    updateMultiplierValue 2 2050 (9 / 10) 0 < updateMultiplierValue 2 2000 0 0 := by
  have hlog1 : (69 / 100 : ℝ) < Real.log 2 :=
    lt_trans (by norm_num) Real.log_two_gt_d9
  have hlog2 : Real.log 2 < (7 / 10 : ℝ) :=
    lt_trans Real.log_two_lt_d9 (by norm_num)
  have hd1a : (4070 : ℝ) < 2000 + Real.log 2 * 3000 + 0 * 2000 := by nlinarith
  have hd1b : 2000 + Real.log 2 * 3000 + 0 * 2000 < 4100 := by nlinarith
  have hd2a : (5870 : ℝ) < 2000 + Real.log 2 * 3000 + (9 / 10) * 2000 := by nlinarith
  have hd1pos : (0 : ℝ) < 2000 + Real.log 2 * 3000 + 0 * 2000 := by linarith
  have hd2pos : (0 : ℝ) < 2000 + Real.log 2 * 3000 + (9 / 10) * 2000 := by linarith
  have hp1lt : 2000 / (2000 + Real.log 2 * 3000 + 0 * 2000) < (998 / 1000) ^ 2 := by
    rw [div_lt_iff hd1pos]
    nlinarith
  have hp2pos : (0 : ℝ) ≤ 2050 / (2000 + Real.log 2 * 3000 + (9 / 10) * 2000) :=
    div_nonneg (by norm_num) hd2pos.le
  have hp21 : 2050 / (2000 + Real.log 2 * 3000 + (9 / 10) * 2000) <
      2000 / (2000 + Real.log 2 * 3000 + 0 * 2000) := by
    rw [div_lt_div_iff hd2pos hd1pos]
    nlinarith
  have hs1 : Real.sqrt (2000 / (2000 + Real.log 2 * 3000 + 0 * 2000)) < 998 / 1000 :=
    (Real.sqrt_lt' (by norm_num)).mpr hp1lt
  have hs1lt1 : Real.sqrt (2000 / (2000 + Real.log 2 * 3000 + 0 * 2000)) < 1 :=
    lt_trans hs1 (by norm_num)
  have hs2 : Real.sqrt (2050 / (2000 + Real.log 2 * 3000 + (9 / 10) * 2000)) <
      Real.sqrt (2000 / (2000 + Real.log 2 * 3000 + 0 * 2000)) :=
    Real.sqrt_lt_sqrt hp2pos hp21
  have hs2lt1 : Real.sqrt (2050 / (2000 + Real.log 2 * 3000 + (9 / 10) * 2000)) < 1 :=
    lt_trans hs2 hs1lt1
  have hexp : ((1 / 2 : ℝ) + 0 * (3 / 10)) = 1 / 2 := by norm_num
  have h21 : (2 : ℝ) - 1 = 1 := by norm_num
  have hv1 : updateMultiplierValue 2 2000 0 0 =
      1 + Real.sqrt (2000 / (2000 + Real.log 2 * 3000 + 0 * 2000)) := by
    unfold updateMultiplierValue calculateProgress
    rw [hexp, ← Real.sqrt_eq_rpow, min_eq_right hs1lt1.le, h21, one_mul]
    exact min_eq_left (by linarith)
  have hv2 : updateMultiplierValue 2 2050 (9 / 10) 0 =
      1 + Real.sqrt (2050 / (2000 + Real.log 2 * 3000 + (9 / 10) * 2000)) := by
    unfold updateMultiplierValue calculateProgress
    rw [hexp, ← Real.sqrt_eq_rpow, min_eq_right hs2lt1.le, h21, one_mul]
    exact min_eq_left (by linarith)
  refine ⟨by norm_num, ?_, ?_⟩
  · rw [hv1]
    linarith
  · rw [hv1, hv2]
    linarith

/-- C8 (amended): on every tick the assigned `currentMultiplier` never
exceeds `targetMultiplier` (the `Math.min` clamp of line 295, for any
elapsed time and any random draws), and the tick value is monotone in
elapsed time when the two random draws are held FIXED — across real ticks
the draws are resampled, which is exactly what breaks monotonicity. -/
theorem C8_tick_bound_and_monotone (t e e' rDur rExp : ℝ)
    (ht : 1 ≤ t) (hd : 0 ≤ rDur) (hx : 0 ≤ rExp) (he : 0 ≤ e) (hee : e ≤ e') :
    updateMultiplierValue t e rDur rExp ≤ t ∧
    updateMultiplierValue t e rDur rExp ≤ updateMultiplierValue t e' rDur rExp := by
  refine ⟨min_le_right _ _, ?_⟩
  have hlog : 0 ≤ Real.log t := Real.log_nonneg ht
  have hden : (0 : ℝ) < 2000 + Real.log t * 3000 + rDur * 2000 := by nlinarith
  have hexp : (0 : ℝ) ≤ (1 / 2 : ℝ) + rExp * (3 / 10) := by nlinarith
  have hp : e / (2000 + Real.log t * 3000 + rDur * 2000) ≤
      e' / (2000 + Real.log t * 3000 + rDur * 2000) :=
    (div_le_div_right hden).mpr hee
  have hppos : 0 ≤ e / (2000 + Real.log t * 3000 + rDur * 2000) :=
    div_nonneg he hden.le
  have hrpow := Real.rpow_le_rpow hppos hp hexp
  have hratio : calculateProgress t e rDur rExp ≤ calculateProgress t e' rDur rExp := by
    unfold calculateProgress
    exact min_le_min (le_refl 1) hrpow
  have hmul : (t - 1) * calculateProgress t e rDur rExp ≤
      (t - 1) * calculateProgress t e' rDur rExp :=
    mul_le_mul_of_nonneg_left hratio (by linarith)
  unfold updateMultiplierValue
  exact min_le_min (by linarith) (le_refl t)

/-- Witness for `C8_tick_bound_and_monotone` at target 2, elapsed times
100 ≤ 200 and both random draws 0. -/
theorem C8_tick_witness :
    updateMultiplierValue 2 100 0 0 ≤ 2 ∧
    updateMultiplierValue 2 100 0 0 ≤ updateMultiplierValue 2 200 0 0 :=
  C8_tick_bound_and_monotone 2 100 200 0 0 (by norm_num) (by norm_num) (by norm_num)
    (by norm_num) (by norm_num)
